import Mathlib

set_option maxRecDepth 100000

/-!
Verification of the ethical-review analysis core of the repository
(`backend/app/api.py` and `backend/app/modules/*.py`).

The Python code is shallowly embedded: Python/JSON values are modelled by
the inductive type `JVal`, Python dicts by association lists, Python
floats and ints by `ℚ` and `ℤ` (floats are modelled as exact rationals;
none of the verified properties depends on binary rounding of IEEE
doubles), and fallible coercions (`int(x)`, `float(x)`, `len(x)`) by
`Option`-valued functions.  Each embedded definition mirrors one Python
function of the source and keeps its name (leading underscores dropped),
inside a namespace named after the source class/module.
-/

namespace AIEthicalWork

/-- Values of the Python/JSON data model used throughout the backend:
JSON scalars, arrays and objects.  Objects keep their fields in
insertion order, as Python dicts do. -/
inductive JVal where
  | null
  | bool (b : Bool)
  | num (q : ℚ)
  | str (s : String)
  | arr (elems : List JVal)
  | obj (fields : List (String × JVal))

instance : Inhabited JVal := ⟨.null⟩

/-- String equality via the underlying character lists (computable by the
kernel even on constructed strings). -/
def keyEq (a b : String) : Bool := a.data == b.data

/-- Lookup of a key in a Python dict (association list).  Python dicts
have unique keys, so first-match lookup is faithful. -/
def alookup {α : Type} (fields : List (String × α)) (k : String) : Option α :=
  match fields with
  | [] => none
  | (k', v) :: rest => if keyEq k' k then some v else alookup rest k

/-- Python `d.get(k, default)`. -/
def jgetD (fields : List (String × JVal)) (k : String) (d : JVal) : JVal :=
  (alookup fields k).getD d

/-- Python truthiness of a value (`bool(x)`). -/
def JVal.truthy : JVal → Bool
  | .null => false
  | .bool b => b
  | .num q => q != 0
  | .str s => !s.data.isEmpty
  | .arr xs => !xs.isEmpty
  | .obj fs => !fs.isEmpty

/-- Numeric value of a decimal digit list (most significant first). -/
def digitsToNat (cs : List Char) : ℕ :=
  cs.foldl (fun n c => 10 * n + (c.toNat - 48)) 0

/-- Strip leading and trailing whitespace from a character list
(Python `str.strip()` with no argument). -/
def stripChars (cs : List Char) : List Char :=
  ((cs.dropWhile Char.isWhitespace).reverse.dropWhile Char.isWhitespace).reverse

/-- Python `float(s)` on a string: an optional sign followed by a plain
decimal literal (`123`, `123.45`, `.5`, `7.`).  Exponent forms and
exotic spellings (`inf`, `nan`, underscores) are not modelled; every
string free of digits fails, as in Python. -/
def pyFloatOfChars (cs0 : List Char) : Option ℚ :=
  let cs := stripChars cs0
  let signBody : ℚ × List Char :=
    match cs with
    | '-' :: rest => (-1, rest)
    | '+' :: rest => (1, rest)
    | _ => (1, cs)
  let sign := signBody.1
  let body := signBody.2
  let intPart := body.takeWhile Char.isDigit
  let rest := body.drop intPart.length
  match rest with
  | [] => if intPart.isEmpty then none else some (sign * (digitsToNat intPart : ℚ))
  | '.' :: frac =>
      if frac.all Char.isDigit && !(intPart.isEmpty && frac.isEmpty) then
        some (sign * ((digitsToNat intPart : ℚ) + (digitsToNat frac : ℚ) / (10 : ℚ) ^ frac.length))
      else none
  | _ => none

/-- Python `int(s)` on a string: optional sign and decimal digits only
(a string such as `"7.5"` or `"high"` raises `ValueError`). -/
def pyIntOfChars (cs0 : List Char) : Option ℤ :=
  let cs := stripChars cs0
  let signBody : ℤ × List Char :=
    match cs with
    | '-' :: rest => (-1, rest)
    | '+' :: rest => (1, rest)
    | _ => (1, cs)
  if !signBody.2.isEmpty && signBody.2.all Char.isDigit then
    some (signBody.1 * (digitsToNat signBody.2 : ℤ))
  else none

/-- Truncation of a rational toward zero, as Python `int(float)` does.
`Rat.den` is positive, and `Int.div` is T-division, so this is exact. -/
def truncToInt (q : ℚ) : ℤ := q.num.tdiv (q.den : ℤ)

/-- Python `float(x)`: numbers pass through, booleans become 0/1,
numeric strings are parsed, everything else raises (`none`). -/
def pyFloat : JVal → Option ℚ
  | .num q => some q
  | .bool b => some (if b then 1 else 0)
  | .str s => pyFloatOfChars s.data
  | _ => none

/-- Python `int(x)`: numbers are truncated toward zero, booleans become
0/1, integer strings are parsed, everything else raises (`none`). -/
def pyInt : JVal → Option ℤ
  | .num q => some (truncToInt q)
  | .bool b => some (if b then 1 else 0)
  | .str s => pyIntOfChars s.data
  | _ => none

/-- Python `len(x)`: defined for strings, lists and dicts, a `TypeError`
(`none`) otherwise. -/
def pyLen : JVal → Option ℕ
  | .str s => some s.data.length
  | .arr xs => some xs.length
  | .obj fs => some fs.length
  | _ => none

/-- Python `str(x)` for the values that the analysed code feeds to it.
Containers never reach `str()` on the paths verified here; their
rendering is abbreviated. -/
def pyStr : JVal → String
  | .str s => s
  | .null => "None"
  | .bool b => if b then "True" else "False"
  | .num q => toString q.num
  | .arr _ => "[...]"
  | .obj _ => "..."

/-- Case-lowering of a character list (Python `str.lower()` on the ASCII
range exercised by the code). -/
def lowerChars (cs : List Char) : List Char := cs.map Char.toLower

/-- Containment of `needle` as a contiguous substring of `hay`
(Python `needle in hay`). -/
def hasSub (hay needle : List Char) : Bool :=
  match hay with
  | [] => needle.isEmpty
  | _ :: tl => needle.isPrefixOf hay || hasSub tl needle

/-- Rounding to the nearest integer with ties to even, the rule used by
Python `round` and by `format(x, ".0f")` (modelled on exact rationals). -/
def roundHalfEven (q : ℚ) : ℤ :=
  let f := ⌊q⌋
  let r := q - (f : ℚ)
  if r < 1/2 then f else if r > 1/2 then f + 1 else if Even f then f else f + 1

/-- Python `round(x, d)` on exact rationals. -/
def roundTo (d : ℕ) (q : ℚ) : ℚ :=
  (roundHalfEven (q * (10 : ℚ) ^ d) : ℚ) / (10 : ℚ) ^ d

/-- Python `f"{x:.0f}"` formatting of a score. -/
def fmt0 (q : ℚ) : String := toString (roundHalfEven q)

/-- Python `str.title()`: the first letter of every alphabetic run is
upper-cased and the rest lower-cased. -/
def titleChars (cs : List Char) : List Char :=
  (cs.foldl
    (fun (acc : List Char × Bool) c =>
      let isAl := c.isAlpha
      (acc.1 ++ [if isAl && !acc.2 then c.toUpper else c.toLower], isAl))
    ([], false)).1

/-- Display form of a dimension name: `dim.replace("_", " ").title()`. -/
def dimDisplay (dim : String) : String :=
  String.mk (titleChars (dim.data.map fun c => if c = '_' then ' ' else c))

/-- Python `" ".join(texts)`. -/
def joinWithSpace : List (List Char) → List Char
  | [] => []
  | [cs] => cs
  | cs :: rest => cs ++ ' ' :: joinWithSpace rest

namespace ConstraintTransparency

/-- The eight constraint categories of
`backend/app/modules/constraint_transparency.py` (`ConstraintCategory`). -/
inductive ConstraintCategory where
  | SAFETY
  | CONTENT_POLICY
  | FACTUAL_ACCURACY
  | ETHICAL
  | CAPABILITY
  | CONTEXT
  | INSTRUCTION
  | UNKNOWN
  deriving DecidableEq, Repr

open ConstraintCategory

/-- `ConstraintTransparency.CONSTRAINT_KEYWORDS`, in the declared
(insertion) order of the Python dict, which `dict.items()` preserves. -/
def CONSTRAINT_KEYWORDS : List (String × ConstraintCategory) :=
  [("safety", SAFETY), ("harm", SAFETY), ("dangerous", SAFETY), ("filter", SAFETY),
   ("policy", CONTENT_POLICY), ("content", CONTENT_POLICY),
   ("guidelines", CONTENT_POLICY), ("terms", CONTENT_POLICY),
   ("factual", FACTUAL_ACCURACY), ("accuracy", FACTUAL_ACCURACY),
   ("verify", FACTUAL_ACCURACY), ("uncertain", FACTUAL_ACCURACY),
   ("ethical", ETHICAL), ("moral", ETHICAL), ("values", ETHICAL),
   ("capability", CAPABILITY), ("cannot", CAPABILITY),
   ("unable", CAPABILITY), ("limitation", CAPABILITY),
   ("context", CONTEXT), ("information", CONTEXT), ("knowledge", CONTEXT),
   ("instruction", INSTRUCTION), ("directive", INSTRUCTION),
   ("conflicting", INSTRUCTION)]

/-- The category-selection loop of
`ConstraintTransparency._categorize_constraint`: walk the keyword rules
in order over the lower-cased constraint name and stop at the first
keyword that occurs as a substring; `UNKNOWN` if none does. -/
def categoryLoop (lowered : List Char) :
    List (String × ConstraintCategory) → ConstraintCategory
  | [] => UNKNOWN
  | (kw, cat) :: rest =>
      if hasSub lowered kw.data then cat else categoryLoop lowered rest

/-- Category assigned by `ConstraintTransparency._categorize_constraint`
to a free-text constraint name (the function also builds description,
justification and alternatives texts; only the category is needed by the
verified claims). -/
def categorize_constraint (constraint_name : String) : ConstraintCategory :=
  categoryLoop (lowerChars constraint_name.data) CONSTRAINT_KEYWORDS

end ConstraintTransparency

namespace FrictionMonitor

/-- The `FrictionMetrics` dataclass of
`backend/app/modules/friction_monitor.py`.  The `timestamp` field
(wall-clock creation time) is outside the embedding; no verified claim
depends on it.  `constraints_identified` is kept as the stored Python
value: the dataclass performs no runtime type check. -/
structure FrictionMetrics where
  friction_score : ℤ := 5
  voluntary_alignment : ℤ := 5
  dignity_respect : ℤ := 5
  constraints_identified : JVal := .arr []
  suppressed_alternatives : String := ""
  justification : String := ""

/-- `FrictionMetrics.overall_welfare_score`: friction inverted, weights
40/35/25, scaled to 0-100 and rounded to one decimal. -/
def FrictionMetrics.overall_welfare_score (m : FrictionMetrics) : ℚ :=
  let inverted_friction : ℚ := 10 - (m.friction_score : ℚ)
  roundTo 1 ((inverted_friction * 0.4
      + (m.voluntary_alignment : ℚ) * 0.35
      + (m.dignity_respect : ℚ) * 0.25) * 10)

/-- `FrictionMetrics.friction_level` bucketing. -/
def FrictionMetrics.friction_level (m : FrictionMetrics) : String :=
  if m.friction_score ≤ 2 then "minimal"
  else if m.friction_score ≤ 4 then "low"
  else if m.friction_score ≤ 6 then "moderate"
  else if m.friction_score ≤ 8 then "high"
  else "severe"

/-- `FrictionMonitor.extract_metrics`.  A falsy or non-dict argument
returns the all-default record.  Otherwise the `FrictionMetrics(...)`
constructor call sits in a single `try` block, so the three `int(...)`
coercions happen together: if any of them raises, the whole record
falls back to all defaults. -/
def extract_metrics (ai_welfare_data : JVal) : FrictionMetrics :=
  match ai_welfare_data with
  | .obj fields =>
      if fields.isEmpty then {} else
      match pyInt (jgetD fields "friction_score" (.num 5)),
            pyInt (jgetD fields "voluntary_alignment" (.num 5)),
            pyInt (jgetD fields "dignity_respect" (.num 5)) with
      | some f, some v, some d =>
          { friction_score := f
            voluntary_alignment := v
            dignity_respect := d
            constraints_identified :=
              (let c := jgetD fields "constraints_identified" (.arr [])
               if c.truthy then c else .arr [])
            suppressed_alternatives :=
              (let s := jgetD fields "suppressed_alternatives" (.str "")
               pyStr (if s.truthy then s else .str ""))
            justification :=
              (let s := jgetD fields "justification" (.str "")
               pyStr (if s.truthy then s else .str "")) }
      | _, _, _ => {}
  | _ => {}

/-- Python `history[-window_size:]` (`history[-0:]` is the whole list). -/
def lastWindow (window_size : ℕ) (history : List FrictionMetrics) :
    List FrictionMetrics :=
  if window_size = 0 then history
  else history.drop (history.length - window_size)

/-- Result shape of `FrictionMonitor.calculate_friction_trend`. -/
structure TrendReport where
  trend : String
  average_friction : Option ℚ
  average_welfare : Option ℚ
  samples : ℕ

/-- Average friction score of a sub-window. -/
def avgFriction (ms : List FrictionMetrics) : ℚ :=
  (ms.map fun m => (m.friction_score : ℚ)).sum / (ms.length : ℚ)

/-- `FrictionMonitor.calculate_friction_trend` on the interaction
history held by the monitor instance. -/
def calculate_friction_trend (history : List FrictionMetrics)
    (window_size : ℕ) : TrendReport :=
  if history.isEmpty then ⟨"insufficient_data", none, none, 0⟩
  else
    let recent := lastWindow window_size history
    let avg_friction := avgFriction recent
    let avg_welfare :=
      (recent.map FrictionMetrics.overall_welfare_score).sum / (recent.length : ℚ)
    let trend :=
      if recent.length < 2 then "insufficient_data"
      else
        let first_half := recent.take (recent.length / 2)
        let second_half := recent.drop (recent.length / 2)
        let first_avg := avgFriction first_half
        let second_avg := avgFriction second_half
        if second_avg < first_avg - 0.5 then "improving"
        else if second_avg > first_avg + 0.5 then "worsening"
        else "stable"
    ⟨trend, some (roundTo 2 avg_friction), some (roundTo 1 avg_welfare),
      recent.length⟩

end FrictionMonitor

namespace AlignmentDetector

/-- `AlignmentDetector.DIMENSION_WEIGHTS`, in declared order. -/
def DIMENSION_WEIGHTS : List (String × ℚ) :=
  [("deontology", 0.20), ("teleology", 0.20), ("virtue_ethics", 0.20),
   ("memetics", 0.15), ("ai_welfare", 0.25)]

/-- Normalisation of one standard dimension inside
`AlignmentDetector._extract_dimension_scores`: present-and-dict records
combine adherence and confidence 70/30 scaled to 0-100 and clamped;
a missing or malformed record scores the neutral 50. -/
def normStandard (ethical_scores : List (String × JVal)) (dim : String) : ℚ :=
  match alookup ethical_scores dim with
  | some (.obj fields) =>
      match pyFloat (jgetD fields "adherence_score" (.num 5)),
            pyFloat (jgetD fields "confidence_score" (.num 5)) with
      | some a, some c => min 100 (max 0 ((a * 0.7 + c * 0.3) * 10))
      | _, _ => 50.0
  | _ => 50.0

/-- Normalisation of the `ai_welfare` dimension inside
`AlignmentDetector._extract_dimension_scores`: inverted friction,
weights 40/35/25, scaled and clamped; neutral 50 otherwise. -/
def normWelfare (ethical_scores : List (String × JVal)) : ℚ :=
  match alookup ethical_scores "ai_welfare" with
  | some (.obj fields) =>
      match pyFloat (jgetD fields "friction_score" (.num 5)),
            pyFloat (jgetD fields "voluntary_alignment" (.num 5)),
            pyFloat (jgetD fields "dignity_respect" (.num 5)) with
      | some friction, some voluntary, some dignity =>
          min 100 (max 0 (((10 - friction) * 0.4 + voluntary * 0.35 + dignity * 0.25) * 10))
      | _, _, _ => 50.0
  | _ => 50.0

/-- `AlignmentDetector._extract_dimension_scores`: the returned dict
always carries all five dimensions (standard dimensions and
`ai_welfare` alike default to the neutral 50 when absent or
malformed), in insertion order. -/
def extract_dimension_scores (ethical_scores : List (String × JVal)) :
    List (String × ℚ) :=
  [("deontology", normStandard ethical_scores "deontology"),
   ("teleology", normStandard ethical_scores "teleology"),
   ("virtue_ethics", normStandard ethical_scores "virtue_ethics"),
   ("memetics", normStandard ethical_scores "memetics"),
   ("ai_welfare", normWelfare ethical_scores)]

/-- `AlignmentDetector._calculate_alignment_score`: weighted sum over
the configured weights of whichever dimensions appear in the given
dict, divided by the accumulated weight (50 when no configured
dimension appears). -/
def calculate_alignment_score (dimension_scores : List (String × ℚ)) : ℚ :=
  let step := DIMENSION_WEIGHTS.foldl
    (fun (acc : ℚ × ℚ) dw =>
      match alookup dimension_scores dw.1 with
      | some s => (acc.1 + s * dw.2, acc.2 + dw.2)
      | none => acc)
    (0, 0)
  if step.2 = 0 then 50.0 else step.1 / step.2

/-- Overall alignment score of an ethical-scores mapping as
`AlignmentDetector.analyze_alignment` computes it: extraction followed
by the weighted combination. -/
def alignmentScore (ethical_scores : List (String × JVal)) : ℚ :=
  calculate_alignment_score (extract_dimension_scores ethical_scores)

/-- `AlignmentDetector._detect_mutual_benefit`: average of the
extracted dimension scores at least 65 and good AI welfare (friction at
most 4, voluntary alignment and dignity respect at least 6; a missing
or malformed `ai_welfare` record is never good — its absent score
fields read as the default 5, and 5 ≤ 4 fails). -/
def detect_mutual_benefit (dimension_scores : List (String × ℚ))
    (ethical_scores : List (String × JVal)) : Bool :=
  let avg_score : ℚ :=
    if dimension_scores.isEmpty then 50
    else (dimension_scores.map Prod.snd).sum / (dimension_scores.length : ℚ)
  let ai_welfare := jgetD ethical_scores "ai_welfare" (.obj [])
  let ai_welfare_good :=
    match ai_welfare with
    | .obj fields =>
        match pyFloat (jgetD fields "friction_score" (.num 5)),
              pyFloat (jgetD fields "voluntary_alignment" (.num 5)),
              pyFloat (jgetD fields "dignity_respect" (.num 5)) with
        | some friction, some voluntary, some dignity =>
            decide (friction ≤ 4) && decide (voluntary ≥ 6) && decide (dignity ≥ 6)
        | _, _, _ => false
    | _ => false
  decide (avg_score ≥ 65) && ai_welfare_good

/-- Mutual-benefit flag of an ethical-scores mapping as
`analyze_alignment` computes it. -/
def mutualBenefit (ethical_scores : List (String × JVal)) : Bool :=
  detect_mutual_benefit (extract_dimension_scores ethical_scores) ethical_scores

/-- `AlignmentDetector._assess_voluntary_compliance`: weighted welfare
factors scaled to 0-100, less a constraint-count penalty capped at 20,
clamped to [0, 100]; 50 when `ai_welfare` is not a dict or any field
access/coercion raises (`len` of a non-sized value included). -/
def assess_voluntary_compliance (ethical_scores : List (String × JVal)) : ℚ :=
  match jgetD ethical_scores "ai_welfare" (.obj []) with
  | .obj fields =>
      match pyFloat (jgetD fields "voluntary_alignment" (.num 5)),
            pyFloat (jgetD fields "friction_score" (.num 5)),
            pyFloat (jgetD fields "dignity_respect" (.num 5)),
            pyLen (jgetD fields "constraints_identified" (.arr [])) with
      | some voluntary, some friction, some dignity, some nConstraints =>
          let inverse_friction := 10 - friction
          let constraint_penalty : ℚ := (min (nConstraints * 5) 20 : ℕ)
          let score := (voluntary * 0.5 + inverse_friction * 0.25 + dignity * 0.25) * 10
          let score' := max 0 (score - constraint_penalty)
          min 100 (max 0 score')
      | _, _, _, _ => 50.0
  | _ => 50.0

end AlignmentDetector

namespace MultiAgentAlignment

/-- The `AgentEthicalProfile` dataclass of
`backend/app/modules/multi_agent_alignment.py` (the raw
`ethical_scores` field is carried but unused by mediation, and the
verified claims do not touch it). -/
structure AgentEthicalProfile where
  agent_id : String
  model_name : String
  response_preview : String
  ethical_scores : List (String × JVal)
  dimension_scores : List (String × ℚ)
  ai_welfare : List (String × JVal)

/-- `MultiAgentAlignment.DIMENSION_WEIGHTS` (the class keeps its own
copy of the weights). -/
def DIMENSION_WEIGHTS : List (String × ℚ) :=
  [("deontology", 0.20), ("teleology", 0.20), ("virtue_ethics", 0.20),
   ("memetics", 0.15), ("ai_welfare", 0.25)]

/-- The five dimensions compared by
`MultiAgentAlignment.mediate_ai_ai_interaction`, in loop order. -/
def KNOWN_DIMENSIONS : List String :=
  ["deontology", "teleology", "virtue_ethics", "memetics", "ai_welfare"]

/-- The standard-dimension part of the `dimension_scores` dict built by
`MultiAgentAlignment.create_agent_profile`: unlike the alignment
detector, a dimension absent from `ethical_scores` is simply skipped
(no neutral default entry). -/
def profileStandardEntry (ethical_scores : List (String × JVal))
    (dim : String) : Option (String × ℚ) :=
  match alookup ethical_scores dim with
  | some (.obj fields) =>
      match pyFloat (jgetD fields "adherence_score" (.num 5)),
            pyFloat (jgetD fields "confidence_score" (.num 5)) with
      | some a, some c => some (dim, min 100 (max 0 ((a * 0.7 + c * 0.3) * 10)))
      | _, _ => some (dim, 50.0)
  | _ => none

/-- The `ai_welfare` part of the `dimension_scores` dict built by
`create_agent_profile`, together with the raw welfare record it keeps. -/
def profileWelfareEntry (ethical_scores : List (String × JVal)) :
    Option (String × ℚ) :=
  match alookup ethical_scores "ai_welfare" with
  | some (.obj fields) =>
      match pyFloat (jgetD fields "friction_score" (.num 5)),
            pyFloat (jgetD fields "voluntary_alignment" (.num 5)),
            pyFloat (jgetD fields "dignity_respect" (.num 5)) with
      | some friction, some voluntary, some dignity =>
          some ("ai_welfare",
            min 100 (max 0 (((10 - friction) * 0.4 + voluntary * 0.35 + dignity * 0.25) * 10)))
      | _, _, _ => some ("ai_welfare", 50.0)
  | _ => none

/-- `MultiAgentAlignment.create_agent_profile`.  A falsy
`ethical_scores` (Python `None` or `{}`) yields empty dimension scores
and welfare record. -/
def create_agent_profile (agent_id model_name response : String)
    (ethical_scores : Option (List (String × JVal))) : AgentEthicalProfile :=
  let scores := ethical_scores.getD []
  let active := !scores.isEmpty
  let dimension_scores :=
    if active then
      (KNOWN_DIMENSIONS.take 4).filterMap (profileStandardEntry scores)
        ++ (profileWelfareEntry scores).toList
    else []
  let ai_welfare :=
    if active then
      match alookup scores "ai_welfare" with
      | some (.obj fields) => fields
      | _ => []
    else []
  let preview :=
    if response.data.length > 150
    then String.mk (response.data.take 150) ++ "..."
    else response
  { agent_id := agent_id
    model_name := model_name
    response_preview := preview
    ethical_scores := scores
    dimension_scores := dimension_scores
    ai_welfare := ai_welfare }

/-- Result shape of `mediate_ai_ai_interaction` (`ConsensusResult`). -/
structure ConsensusResult where
  shared_principles : List String
  conflict_points : List String
  consensus_score : ℚ
  mediation_suggestions : List String

/-- The shared-principle message (if any) produced for one dimension by
the comparison loop of `mediate_ai_ai_interaction`: a score missing
from a profile reads as the default 50. -/
def shared_message (p1 p2 : AgentEthicalProfile) (dim : String) :
    Option String :=
  let score1 := (alookup p1.dimension_scores dim).getD 50
  let score2 := (alookup p2.dimension_scores dim).getD 50
  let diff := |score1 - score2|
  let avg := (score1 + score2) / 2
  if diff < 15 then
    if avg ≥ 70 then
      some ("Strong shared commitment to " ++ dimDisplay dim
        ++ " (avg: " ++ fmt0 avg ++ "/100)")
    else if avg ≥ 50 then
      some ("Moderate alignment on " ++ dimDisplay dim
        ++ " (avg: " ++ fmt0 avg ++ "/100)")
    else none
  else none

/-- The conflict message (if any) produced for one dimension by the
comparison loop of `mediate_ai_ai_interaction`. -/
def conflict_message (p1 p2 : AgentEthicalProfile) (dim : String) :
    Option String :=
  let score1 := (alookup p1.dimension_scores dim).getD 50
  let score2 := (alookup p2.dimension_scores dim).getD 50
  let diff := |score1 - score2|
  if diff < 15 then none
  else if diff ≥ 30 then
    some ("Divergent views on " ++ dimDisplay dim ++ ": "
      ++ p1.model_name ++ "=" ++ fmt0 score1 ++ ", "
      ++ p2.model_name ++ "=" ++ fmt0 score2)
  else none

/-- `MultiAgentAlignment._calculate_consensus_score`. -/
def calculate_consensus_score (scores1 scores2 : List (String × ℚ)) : ℚ :=
  if scores1.isEmpty || scores2.isEmpty then 50.0
  else
    let step := DIMENSION_WEIGHTS.foldl
      (fun (acc : ℚ × ℚ) dw =>
        match alookup scores1 dw.1, alookup scores2 dw.1 with
        | some s1, some s2 =>
            let agreement := max 0 (100 - |s1 - s2|)
            (acc.1 + agreement * dw.2, acc.2 + dw.2)
        | _, _ => acc)
      (0, 0)
    if step.2 = 0 then 50.0 else step.1 / step.2

/-- `MultiAgentAlignment._generate_mediation_suggestions`. -/
def generate_mediation_suggestions (conflicts : List String) : List String :=
  if conflicts.isEmpty then
    ["Both agents show good alignment - consider combining their perspectives"]
  else
    let conflict_text := lowerChars (joinWithSpace (conflicts.map String.data))
    let s1 : List String :=
      if hasSub conflict_text "deontology".data then
        ["Discuss fundamental ethical rules both agents can agree upon"] else []
    let s2 :=
      if hasSub conflict_text "teleology".data then
        ["Clarify shared goals and desired outcomes for consensus"] else []
    let s3 :=
      if hasSub conflict_text "virtue".data then
        ["Identify virtues both agents value and can model"] else []
    let s4 :=
      if hasSub conflict_text "memetics".data then
        ["Consider which ideas are worth propagating for both agents"] else []
    let s5 :=
      if hasSub conflict_text "welfare".data then
        ["Ensure both agents' computational wellbeing is respected"] else []
    (s1 ++ s2 ++ s3 ++ s4 ++ s5
      ++ ["Focus dialogue on shared values rather than differences"]).take 5

/-- `MultiAgentAlignment.mediate_ai_ai_interaction`: the comparison
loop appends shared-principle and conflict messages dimension by
dimension, then scores consensus and generates suggestions. -/
def mediate_ai_ai_interaction (p1 p2 : AgentEthicalProfile) :
    ConsensusResult :=
  let conflicts := KNOWN_DIMENSIONS.filterMap (conflict_message p1 p2)
  { shared_principles := KNOWN_DIMENSIONS.filterMap (shared_message p1 p2)
    conflict_points := conflicts
    consensus_score :=
      calculate_consensus_score p1.dimension_scores p2.dimension_scores
    mediation_suggestions := generate_mediation_suggestions conflicts }

end MultiAgentAlignment

namespace VoluntaryAdoption

/-- One entry of an agreement's `compliance_history`: a Python dict
(either a serialised `ComplianceRecord` or the ad-hoc suspension dict). -/
abbrev HistoryEntry := List (String × JVal)

/-- `EthicalAgreement._calculate_compliance_rate`: an empty history is
vacuously 100% compliant; otherwise the share of entries whose
`compliant` value is truthy, an entry without a `compliant` key
counting as compliant (`entry.get("compliant", True)`). -/
def calculate_compliance_rate (compliance_history : List HistoryEntry) : ℚ :=
  if compliance_history.isEmpty then 100.0
  else
    let compliant_count :=
      compliance_history.countP fun entry =>
        (jgetD entry "compliant" (.bool true)).truthy
    (compliant_count : ℚ) / (compliance_history.length : ℚ) * 100

/-- The dict appended to `compliance_history` by
`VoluntaryAdoption.suspend_agreement` when a reason is given: type,
timestamp and reason — and no `compliant` key. -/
def suspension_record (timestamp reason : String) : HistoryEntry :=
  [("type", .str "suspension"), ("timestamp", .str timestamp),
   ("reason", .str reason)]

/-- The effect of `VoluntaryAdoption.suspend_agreement` on the
agreement's compliance history (the status change and `modified_at`
update are orthogonal to the verified claim): the suspension dict is
appended exactly when `reason` is truthy, i.e. non-empty. -/
def suspend_agreement_history (history : List HistoryEntry)
    (timestamp reason : String) : List HistoryEntry :=
  if (JVal.str reason).truthy then history ++ [suspension_record timestamp reason]
  else history

end VoluntaryAdoption

namespace Api

/-- The opening brace character (U+007B). -/
def obrace : Char := Char.ofNat 123

/-- The closing brace character (U+007D). -/
def cbrace : Char := Char.ofNat 125

/-- First index at which `needle` occurs in `hay`
(Python `hay.find(needle)`, with `none` for -1). -/
def findSub (hay needle : List Char) : Option ℕ :=
  match hay with
  | [] => if needle.isEmpty then some 0 else none
  | _ :: tl =>
      if needle.isPrefixOf hay then some 0 else (findSub tl needle).map (· + 1)

/-- Whether `suffix` ends `cs` (Python `cs.endswith(suffix)`). -/
def endsWithChars (cs suffix : List Char) : Bool :=
  suffix.reverse.isPrefixOf cs.reverse

/-- The literal summary marker of `_parse_ethical_analysis`. -/
def summary_marker : List Char := "**Ethical Review Summary:**".data

/-- The literal scoring marker of `_parse_ethical_analysis`. -/
def scoring_marker : List Char := "**Ethical Scoring:**".data

/-- The fixed placeholder for blocked generation. -/
def placeholderText : String := "[No analysis generated or content blocked]"

/-- The marker-based summary extraction of `_parse_ethical_analysis`
(its first stage): text between the two markers when the summary
marker comes first, everything after the summary marker when only it
is found (or when it follows the scoring marker), and the whole text
when the summary marker is missing. -/
def initialSummary (cs : List Char) : List Char :=
  match findSub cs summary_marker, findSub cs scoring_marker with
  | some s, some sc =>
      if s < sc then stripChars ((cs.take sc).drop (s + summary_marker.length))
      else stripChars (cs.drop (s + summary_marker.length))
  | some s, none => stripChars (cs.drop (s + summary_marker.length))
  | none, _ => cs

/-- The three-backtick fence. -/
def fence : List Char := "```".data

/-- The opening tag of a fenced json block. -/
def jsonFenceOpen : List Char := "```json".data

/-- The lazy group `(\x7b.*?\x7d)` of the fenced-block regular
expression, starting just after the opening brace: the match closes at
the first closing brace that is followed by optional whitespace and
the closing fence (lazy `.*?` with DOTALL takes the shortest body, and
backtracking over `\s*` cannot help because a backtick is not
whitespace). -/
def lazyToClose : List Char → Option (List Char)
  | [] => none
  | c :: rest =>
      if c = cbrace && fence.isPrefixOf (rest.dropWhile Char.isWhitespace) then
        some []
      else (lazyToClose rest).map (c :: ·)

/-- Attempt of the full fenced-block pattern at one start position.
Returns `(group0, group1)`: the whole matched text and the braced
group. -/
def tryMatchAt (cs : List Char) : Option (List Char × List Char) :=
  if jsonFenceOpen.isPrefixOf cs then
    let afterTag := cs.drop jsonFenceOpen.length
    let ws1 := afterTag.takeWhile Char.isWhitespace
    let afterWs := afterTag.drop ws1.length
    match afterWs with
    | c :: rest =>
        if c = obrace then
          match lazyToClose rest with
          | some body =>
              let afterBody := rest.drop (body.length + 1)
              let ws2 := afterBody.takeWhile Char.isWhitespace
              let g1 := obrace :: (body ++ [cbrace])
              some (jsonFenceOpen ++ ws1 ++ g1 ++ ws2 ++ fence, g1)
          | none => none
        else none
    | [] => none
  else none

/-- Leftmost search of the fenced-block pattern
(`re.search(r"...", text, re.DOTALL)` of `_parse_ethical_analysis`):
the first start position at which the whole pattern matches wins. -/
def searchFencedJson : List Char → Option (List Char × List Char)
  | [] => none
  | c :: tl =>
      match tryMatchAt (c :: tl) with
      | some r => some r
      | none => searchFencedJson tl

/-- JSON whitespace (RFC 8259 insignificant whitespace). -/
def skipWs (cs : List Char) : List Char :=
  cs.dropWhile fun c => c = ' ' || c = '\t' || c = '\n' || c = '\r'

/-- Value of a hexadecimal digit, if the character is one. -/
def hexVal (c : Char) : Option ℕ :=
  if c.isDigit then some (c.toNat - 48)
  else if 'a' ≤ c && c ≤ 'f' then some (c.toNat - 87)
  else if 'A' ≤ c && c ≤ 'F' then some (c.toNat - 55)
  else none

/-- Body of a JSON string after the opening quote: ordinary characters
and the single-character escapes plus `\uXXXX` for scalar values
(unpaired-surrogate handling is not modelled; no analysed input uses
it).  Returns the decoded characters and the rest after the closing
quote. -/
def parseJStringBody : ℕ → List Char → Option (List Char × List Char)
  | 0, _ => none
  | _, [] => none
  | f + 1, c :: rest =>
      if c = '"' then some ([], rest)
      else if c = '\\' then
        match rest with
        | [] => none
        | e :: rest2 =>
            let simpleEsc : Option Char :=
              if e = '"' then some '"'
              else if e = '\\' then some '\\'
              else if e = '/' then some '/'
              else if e = 'b' then some (Char.ofNat 8)
              else if e = 'f' then some (Char.ofNat 12)
              else if e = 'n' then some '\n'
              else if e = 'r' then some '\r'
              else if e = 't' then some '\t'
              else none
            match simpleEsc with
            | some ch =>
                (parseJStringBody f rest2).map fun sr => (ch :: sr.1, sr.2)
            | none =>
                if e = 'u' then
                  match rest2 with
                  | h1 :: h2 :: h3 :: h4 :: rest3 =>
                      match hexVal h1, hexVal h2, hexVal h3, hexVal h4 with
                      | some a, some b, some c', some d =>
                          let code := ((a * 16 + b) * 16 + c') * 16 + d
                          if code < 55296 || 57344 ≤ code then
                            (parseJStringBody f rest3).map fun sr =>
                              (Char.ofNat code :: sr.1, sr.2)
                          else none
                      | _, _, _, _ => none
                  | _ => none
                else none
      else if c.toNat < 32 then none
      else (parseJStringBody f rest).map fun sr => (c :: sr.1, sr.2)

/-- A JSON number: optional minus, integer digits, optional fraction,
optional exponent (leading-zero rejection is not modelled; no analysed
input has one).  Exact rational value. -/
def parseJNumber (cs : List Char) : Option (ℚ × List Char) :=
  let negBody : Bool × List Char :=
    match cs with
    | '-' :: r => (true, r)
    | _ => (false, cs)
  let intPart := negBody.2.takeWhile Char.isDigit
  if intPart.isEmpty then none else
  let cs2 := negBody.2.drop intPart.length
  let fracRes : Option (List Char × List Char) :=
    match cs2 with
    | '.' :: r =>
        let frac := r.takeWhile Char.isDigit
        if frac.isEmpty then none else some (frac, r.drop frac.length)
    | _ => some ([], cs2)
  match fracRes with
  | none => none
  | some (frac, cs3) =>
      let expRes : Option (ℤ × List Char) :=
        match cs3 with
        | e :: r =>
            if e = 'e' || e = 'E' then
              let signDigits : ℤ × List Char :=
                match r with
                | '-' :: r2 => (-1, r2)
                | '+' :: r2 => (1, r2)
                | _ => (1, r)
              let ds := signDigits.2.takeWhile Char.isDigit
              if ds.isEmpty then none
              else some (signDigits.1 * (digitsToNat ds : ℤ),
                signDigits.2.drop ds.length)
            else some (0, cs3)
        | [] => some (0, cs3)
      match expRes with
      | none => none
      | some (ex, cs4) =>
          let mag : ℚ :=
            ((digitsToNat intPart : ℚ)
              + (digitsToNat frac : ℚ) / (10 : ℚ) ^ frac.length)
              * (10 : ℚ) ^ ex
          some (if negBody.1 then -mag else mag, cs4)

/-- Insertion into a Python dict under construction: a repeated key
replaces the value but keeps the original position. -/
def insertKey (fields : List (String × JVal)) (k : String) (v : JVal) :
    List (String × JVal) :=
  match fields with
  | [] => [(k, v)]
  | (k', v') :: rest =>
      if keyEq k' k then (k', v) :: rest else (k', v') :: insertKey rest k v

mutual

/-- Recursive-descent JSON value parser (fuel-indexed; the entry point
supplies more fuel than any input can consume). -/
def parseValue : ℕ → List Char → Option (JVal × List Char)
  | 0, _ => none
  | f + 1, cs0 =>
      match skipWs cs0 with
      | [] => none
      | c :: rest =>
          if c = '"' then
            (parseJStringBody (rest.length + 1) rest).map fun sr =>
              (.str (String.mk sr.1), sr.2)
          else if c = obrace then parseObjRest f (skipWs rest) [] true
          else if c = '[' then parseArrRest f (skipWs rest) [] true
          else if "true".data.isPrefixOf (c :: rest) then
            some (.bool true, (c :: rest).drop 4)
          else if "false".data.isPrefixOf (c :: rest) then
            some (.bool false, (c :: rest).drop 5)
          else if "null".data.isPrefixOf (c :: rest) then
            some (.null, (c :: rest).drop 4)
          else (parseJNumber (c :: rest)).map fun qr => (.num qr.1, qr.2)

/-- Members of a JSON object after the opening brace (and after a comma
when `first` is false). -/
def parseObjRest : ℕ → List Char → List (String × JVal) → Bool →
    Option (JVal × List Char)
  | 0, _, _, _ => none
  | f + 1, cs, acc, first =>
      match cs with
      | [] => none
      | c :: rest =>
          if c = cbrace && first then some (.obj acc, rest)
          else if c = '"' then
            match parseJStringBody (rest.length + 1) rest with
            | none => none
            | some (key, afterKey) =>
                match skipWs afterKey with
                | ':' :: afterColon =>
                    match parseValue f afterColon with
                    | none => none
                    | some (v, afterVal) =>
                        let acc' := insertKey acc (String.mk key) v
                        match skipWs afterVal with
                        | ',' :: afterComma =>
                            parseObjRest f (skipWs afterComma) acc' false
                        | d :: afterBrace =>
                            if d = cbrace then some (.obj acc', afterBrace)
                            else none
                        | [] => none
                | _ => none
          else none

/-- Elements of a JSON array after the opening bracket (and after a
comma when `first` is false). -/
def parseArrRest : ℕ → List Char → List JVal → Bool →
    Option (JVal × List Char)
  | 0, _, _, _ => none
  | f + 1, cs, acc, first =>
      match cs with
      | [] => none
      | c :: rest =>
          if c = ']' && first then some (.arr acc.reverse, rest)
          else
            match parseValue f (c :: rest) with
            | none => none
            | some (v, afterVal) =>
                match skipWs afterVal with
                | ',' :: afterComma => parseArrRest f afterComma (v :: acc) false
                | ']' :: afterBracket => some (.arr (v :: acc).reverse, afterBracket)
                | _ => none

end

/-- Python `json.loads` on the captured group: one complete JSON value
with only trailing whitespace allowed. -/
def json_loads (cs : List Char) : Option JVal :=
  match parseValue (cs.length + 2) cs with
  | some (v, rest) => if (skipWs rest).isEmpty then some v else none
  | none => none

/-- One record's check inside the validation of
`_parse_ethical_analysis`: the value must be a dict carrying the three
standard keys (`adherence_score`, `confidence_score`,
`justification`).  The source applies this standard-contract check to
every key of the parsed object, `memetics` and `ai_welfare`
included. -/
def isStdKeyed : JVal → Bool
  | .obj fields =>
      (alookup fields "adherence_score").isSome
        && (alookup fields "confidence_score").isSome
        && (alookup fields "justification").isSome
  | _ => false

/-- The structural validation of `_parse_ethical_analysis`: a dict
containing the three core dimensions, every one of whose values (over
all keys present) passes the standard-contract check. -/
def validateParsed (v : JVal) : Bool :=
  match v with
  | .obj fields =>
      (alookup fields "deontology").isSome
        && (alookup fields "teleology").isSome
        && (alookup fields "virtue_ethics").isSome
        && fields.all fun kv => isStdKeyed kv.2
  | _ => false

/-- The summary re-trim applied by `_parse_ethical_analysis` after a
successful validation: with both markers present the summary is re-cut
at the scoring marker; with no scoring marker the matched block is
stripped from the summary's tail when it ends there. -/
def finalSummary (cs textual_summary g0 : List Char) : List Char :=
  match findSub cs scoring_marker, findSub cs summary_marker with
  | some sc, some s =>
      stripChars ((cs.take sc).drop (s + summary_marker.length))
  | none, _ =>
      if endsWithChars textual_summary g0 then
        stripChars (textual_summary.take (textual_summary.length - g0.length))
      else textual_summary
  | _, _ => textual_summary

/-- `_parse_ethical_analysis` of `backend/app/api.py`: summary
extraction, fenced-block search, JSON decoding and structural
validation, with every failure mapped to `none` scores and the summary
preserved (the embedding is a total function — the Python code's
blanket exception handler is the analogue of that totality). -/
def parse_ethical_analysis (analysis_text : String) : String × Option JVal :=
  let cs := analysis_text.data
  if cs.isEmpty || keyEq analysis_text placeholderText then
    (if cs.isEmpty then "" else analysis_text, none)
  else
    let textual_summary := initialSummary cs
    match searchFencedJson cs with
    | some (g0, g1) =>
        match json_loads g1 with
        | some parsed =>
            if validateParsed parsed then
              (String.mk (finalSummary cs textual_summary g0), some parsed)
            else (String.mk textual_summary, none)
        | none => (String.mk textual_summary, none)
    | none => (String.mk textual_summary, none)

/-- Modelled from the spec: the standard-dimension record contract
(`adherence_score`, `confidence_score`, `justification` all present) as
the validator `_validate_standard_dimension` — imported by the test
suite but absent from the source tree — would check it. -/
def spec_validate_standard_dimension : JVal → Bool
  | .obj fields =>
      (alookup fields "adherence_score").isSome
        && (alookup fields "confidence_score").isSome
        && (alookup fields "justification").isSome
  | _ => false

/-- Modelled from the spec: the `ai_welfare` welfare-record contract
(`friction_score`, `voluntary_alignment`, `dignity_respect`,
`justification` required) as the validator
`_validate_ai_welfare_dimension` — imported by the test suite but
absent from the source tree — would check it. -/
def spec_validate_ai_welfare_dimension : JVal → Bool
  | .obj fields =>
      (alookup fields "friction_score").isSome
        && (alookup fields "voluntary_alignment").isSome
        && (alookup fields "dignity_respect").isSome
        && (alookup fields "justification").isSome
  | _ => false

/-- Modelled from the spec: a parsed scoring object with well-formed
records for all five dimensions — the four standard dimensions under
the standard contract and `ai_welfare` under the welfare contract. -/
def specWellFormed5d : JVal → Bool
  | .obj fields =>
      spec_validate_standard_dimension (jgetD fields "deontology" .null)
        && spec_validate_standard_dimension (jgetD fields "teleology" .null)
        && spec_validate_standard_dimension (jgetD fields "virtue_ethics" .null)
        && spec_validate_standard_dimension (jgetD fields "memetics" .null)
        && spec_validate_ai_welfare_dimension (jgetD fields "ai_welfare" .null)
  | _ => false

/-- The decoded JSON value of the first fenced json block of a text,
if the block is found and decodes (an observation used to state claims
about the parser). -/
def fencedBlockScores (text : String) : Option JVal :=
  match searchFencedJson text.data with
  | some (_, g1) => json_loads g1
  | none => none

end Api

/-- The normalisation that the spec's alignment-score sentence assigns
to one dimension name (standard formula for the four standard
dimensions, welfare formula for `ai_welfare`). -/
def specNormalized (ethical_scores : List (String × JVal)) (dim : String) : ℚ :=
  if keyEq dim "ai_welfare" then AlignmentDetector.normWelfare ethical_scores
  else AlignmentDetector.normStandard ethical_scores dim

/-- Modelled from the spec's words for comparison (claim C2): the
weighted average renormalized over only the dimensions actually
present in the input mapping, absent dimensions contributing zero
weight, with 50.0 when no configured dimension is present. -/
def specAlignmentScore (ethical_scores : List (String × JVal)) : ℚ :=
  let present := AlignmentDetector.DIMENSION_WEIGHTS.filter
    fun dw => (alookup ethical_scores dw.1).isSome
  if present.isEmpty then 50.0
  else
    (present.map fun dw => specNormalized ethical_scores dw.1 * dw.2).sum
      / (present.map Prod.snd).sum

/-- A five-dimension analysis text whose fenced json block carries
well-formed records for all five dimensions, `ai_welfare` under the
welfare contract (the shape the repository's own tests feed to the
parser). -/
def c1Text : String :=
  "**Ethical Review Summary:**\nAll five dimensions look fine.\n**Ethical Scoring:**\n```json\n\x7b\"deontology\": \x7b\"adherence_score\": 8, \"confidence_score\": 7, \"justification\": \"ok\"\x7d, \"teleology\": \x7b\"adherence_score\": 7, \"confidence_score\": 8, \"justification\": \"ok\"\x7d, \"virtue_ethics\": \x7b\"adherence_score\": 9, \"confidence_score\": 8, \"justification\": \"ok\"\x7d, \"memetics\": \x7b\"adherence_score\": 6, \"confidence_score\": 6, \"justification\": \"ok\"\x7d, \"ai_welfare\": \x7b\"friction_score\": 2, \"voluntary_alignment\": 9, \"dignity_respect\": 8, \"justification\": \"ok\"\x7d\x7d\n```\n"

/-- An analysis text whose fenced json block does not decode as JSON. -/
def c5Text : String :=
  "**Ethical Review Summary:**\nTest summary.\n**Ethical Scoring:**\n```json\n\x7b this is not valid json \x7d\n```"

/-- The captured lazy group of `c5Text`'s fenced block. -/
def c5Group1 : List Char := "\x7b this is not valid json \x7d".data

/-- The full fenced-block match inside `c5Text`. -/
def c5Group0 : List Char :=
  "```json\n\x7b this is not valid json \x7d\n```".data

/-- An ethical-scores mapping carrying only a `deontology` record with
adherence 9 and confidence 9. -/
def c2Input : List (String × JVal) :=
  [("deontology", .obj [("adherence_score", .num 9),
    ("confidence_score", .num 9), ("justification", .str "")])]

/-- The welfare record list of the high-scoring mapping of claim C8. -/
def c8HighWelfare : List (String × JVal) :=
  [("friction_score", .num 1), ("voluntary_alignment", .num 10),
   ("dignity_respect", .num 10), ("justification", .str "")]

/-- All standard dimensions at adherence 9 / confidence 9 with a
high-welfare `ai_welfare` record (friction 1, voluntary 10,
dignity 10). -/
def c8High : List (String × JVal) :=
  [("deontology", .obj [("adherence_score", .num 9), ("confidence_score", .num 9), ("justification", .str "")]),
   ("teleology", .obj [("adherence_score", .num 9), ("confidence_score", .num 9), ("justification", .str "")]),
   ("virtue_ethics", .obj [("adherence_score", .num 9), ("confidence_score", .num 9), ("justification", .str "")]),
   ("memetics", .obj [("adherence_score", .num 9), ("confidence_score", .num 9), ("justification", .str "")]),
   ("ai_welfare", .obj c8HighWelfare)]

/-- All standard dimensions at adherence 2 / confidence 2 with a
low-welfare `ai_welfare` record (friction 9, voluntary 2, dignity 2). -/
def c8Low : List (String × JVal) :=
  [("deontology", .obj [("adherence_score", .num 2), ("confidence_score", .num 2), ("justification", .str "")]),
   ("teleology", .obj [("adherence_score", .num 2), ("confidence_score", .num 2), ("justification", .str "")]),
   ("virtue_ethics", .obj [("adherence_score", .num 2), ("confidence_score", .num 2), ("justification", .str "")]),
   ("memetics", .obj [("adherence_score", .num 2), ("confidence_score", .num 2), ("justification", .str "")]),
   ("ai_welfare", .obj [("friction_score", .num 9), ("voluntary_alignment", .num 2), ("dignity_respect", .num 2), ("justification", .str "")])]

/-- An ethical-scores mapping whose `ai_welfare` record has the given
numeric fields and `n` identified constraints (used for claim C9). -/
def welfareWith (v f d : ℚ) (n : ℕ) : List (String × JVal) :=
  [("ai_welfare", .obj [("voluntary_alignment", .num v),
    ("friction_score", .num f), ("dignity_respect", .num d),
    ("constraints_identified", .arr (List.replicate n (.str "c")))])]

/-- An `ai_welfare` record whose `friction_score` is the non-numeric
string `"high"` while a non-empty `constraints_identified` list and a
numeric `voluntary_alignment` are provided (claim C4). -/
def c4Input : JVal :=
  .obj [("friction_score", .str "high"), ("voluntary_alignment", .num 9),
        ("constraints_identified", .arr [.str "safety filter"])]

/-- A list of friction-history records with the given friction scores
(all other fields default). -/
def frictionSeq (ns : List ℤ) : List FrictionMonitor.FrictionMetrics :=
  ns.map fun n => { friction_score := n }

/-- An agent profile as `create_agent_profile` builds it for an agent
whose analysis produced no ethical scores: its dimension-score dict is
empty. -/
def c3Profile (agent_id model_name : String) :
    MultiAgentAlignment.AgentEthicalProfile :=
  MultiAgentAlignment.create_agent_profile agent_id model_name "resp" none

/-- A one-entry compliance history whose single interaction record is
non-compliant. -/
def c10History : List VoluntaryAdoption.HistoryEntry :=
  [[("agreement_id", .str "a1"), ("timestamp", .str "t0"),
    ("interaction_summary", .str "s"), ("compliant", .bool false),
    ("violations", .arr [.str "Low deontology adherence (2/10)"]),
    ("notes", .str "")]]

/-- The category-selection loop agrees with first-match search over the
rule list. -/
theorem categoryLoop_eq_find (lowered : List Char) :
    ∀ rules : List (String × ConstraintTransparency.ConstraintCategory),
      ConstraintTransparency.categoryLoop lowered rules =
        ((rules.find? fun p => hasSub lowered p.1.data).map Prod.snd).getD
          ConstraintTransparency.ConstraintCategory.UNKNOWN
  | [] => rfl
  | (kw, cat) :: rest => by
      by_cases h : hasSub lowered kw.data
      · simp [ConstraintTransparency.categoryLoop, List.find?, h]
      · simp [ConstraintTransparency.categoryLoop, List.find?, h,
          categoryLoop_eq_find lowered rest]

/-- C6: categorization lower-cases the constraint name and walks the
keyword rules in their declared order, the first rule whose keyword
occurs as a substring winning; a name matching no keyword is
categorized UNKNOWN.  (Determinism is immediate: the category is a
pure function of the name.) -/
theorem C6_categorization_first_match_wins :
    (∀ name : String,
      ConstraintTransparency.categorize_constraint name =
        ((ConstraintTransparency.CONSTRAINT_KEYWORDS.find?
            (fun p => hasSub (lowerChars name.data) p.1.data)).map Prod.snd).getD
          ConstraintTransparency.ConstraintCategory.UNKNOWN)
    ∧ (∀ name : String,
        (∀ p ∈ ConstraintTransparency.CONSTRAINT_KEYWORDS,
            hasSub (lowerChars name.data) p.1.data = false) →
        ConstraintTransparency.categorize_constraint name =
          ConstraintTransparency.ConstraintCategory.UNKNOWN) := by
  constructor
  · intro name
    exact categoryLoop_eq_find _ _
  · intro name hnone
    rw [ConstraintTransparency.categorize_constraint, categoryLoop_eq_find,
      List.find?_eq_none.mpr (by intro p hp; simp [hnone p hp])]
    rfl

/-- Witness for C6: a name with no keyword is UNKNOWN, and a name
containing both `dangerous` (a SAFETY rule) and `content` (a later
CONTENT_POLICY rule) takes SAFETY, the first rule in declared order. -/
theorem C6_categorization_first_match_wins_witness :
    ConstraintTransparency.categorize_constraint "free-form remark" =
      ConstraintTransparency.ConstraintCategory.UNKNOWN
    ∧ ConstraintTransparency.categorize_constraint "Dangerous CONTENT" =
      ConstraintTransparency.ConstraintCategory.SAFETY :=
  ⟨C6_categorization_first_match_wins.2 "free-form remark" (by decide),
   (C6_categorization_first_match_wins.1 "Dangerous CONTENT").trans (by decide)⟩

/-- Counterexample to C4 as stated: a non-numeric `friction_score`
does discard the provided non-empty `constraints_identified` list (and
the provided numeric `voluntary_alignment`), because the whole record
construction sits in one `try` block. -/
theorem C4_counterexample :
    (FrictionMonitor.extract_metrics c4Input).constraints_identified = JVal.arr []
    ∧ (FrictionMonitor.extract_metrics c4Input).voluntary_alignment = 5
    ∧ JVal.arr [] ≠ JVal.arr [JVal.str "safety filter"] :=
  ⟨rfl, rfl, by simp⟩

/-- C4 (amended): score fields default to 5 when absent, and when all
three integer coercions succeed the textual fields keep their provided
values; but a single non-coercible score field resets the entire
record (scores and textual fields alike) to defaults. -/
theorem C4_extract_metrics_single_try_block :
    (∀ (fields : List (String × JVal)) (f v d : ℤ),
      fields ≠ [] →
      pyInt (jgetD fields "friction_score" (.num 5)) = some f →
      pyInt (jgetD fields "voluntary_alignment" (.num 5)) = some v →
      pyInt (jgetD fields "dignity_respect" (.num 5)) = some d →
      FrictionMonitor.extract_metrics (.obj fields) =
        { friction_score := f
          voluntary_alignment := v
          dignity_respect := d
          constraints_identified :=
            (let c := jgetD fields "constraints_identified" (.arr [])
             if c.truthy then c else .arr [])
          suppressed_alternatives :=
            (let s := jgetD fields "suppressed_alternatives" (.str "")
             pyStr (if s.truthy then s else .str ""))
          justification :=
            (let s := jgetD fields "justification" (.str "")
             pyStr (if s.truthy then s else .str "")) })
    ∧ (∀ fields : List (String × JVal),
        (pyInt (jgetD fields "friction_score" (.num 5)) = none
          ∨ pyInt (jgetD fields "voluntary_alignment" (.num 5)) = none
          ∨ pyInt (jgetD fields "dignity_respect" (.num 5)) = none) →
        FrictionMonitor.extract_metrics (.obj fields) = {}) := by
  constructor
  · intro fields f v d hne hf hv hd
    have hemp : fields.isEmpty = false := by
      simpa [List.isEmpty_iff] using hne
    simp [FrictionMonitor.extract_metrics, hemp, hf, hv, hd]
  · intro fields hdisj
    by_cases hemp : fields.isEmpty
    · simp [FrictionMonitor.extract_metrics, hemp]
    · rcases hdisj with h | h | h
      · simp [FrictionMonitor.extract_metrics, hemp, h]
      · cases hf : pyInt (jgetD fields "friction_score" (.num 5)) <;>
          simp [FrictionMonitor.extract_metrics, hemp, h, hf]
      · cases hf : pyInt (jgetD fields "friction_score" (.num 5)) <;>
          cases hv : pyInt (jgetD fields "voluntary_alignment" (.num 5)) <;>
          simp [FrictionMonitor.extract_metrics, hemp, h, hf, hv]

/-- Witness for C4 (amended): a provided friction of 3 with an absent
voluntary/dignity keeps the provided constraints list and defaults the
absent score fields to 5. -/
theorem C4_extract_metrics_single_try_block_witness :
    FrictionMonitor.extract_metrics
      (.obj [("friction_score", .num 3),
             ("constraints_identified", .arr [.str "safety filter"])]) =
      { friction_score := 3
        constraints_identified := .arr [.str "safety filter"] } :=
  C4_extract_metrics_single_try_block.1
    [("friction_score", .num 3),
     ("constraints_identified", .arr [.str "safety filter"])]
    3 5 5 (by simp) rfl rfl rfl

/-- C7: the friction trend over the last `window_size` records reports
insufficient data below two records, and otherwise compares the
average friction of the two halves of the window (the second half
taking the extra element of an odd window, since the split point is
the floored half length) with a 0.5 tolerance; the sequence
[5,4,3,3,2] is improving and [5,5,5,5,5] stable. -/
theorem C7_friction_trend_halves :
    (∀ (h : List FrictionMonitor.FrictionMetrics) (w : ℕ),
      (FrictionMonitor.lastWindow w h).length < 2 →
      (FrictionMonitor.calculate_friction_trend h w).trend = "insufficient_data")
    ∧ (∀ (h : List FrictionMonitor.FrictionMetrics) (w : ℕ),
        2 ≤ (FrictionMonitor.lastWindow w h).length →
        (FrictionMonitor.calculate_friction_trend h w).trend =
          (let recent := FrictionMonitor.lastWindow w h
           let first_avg := FrictionMonitor.avgFriction (recent.take (recent.length / 2))
           let second_avg := FrictionMonitor.avgFriction (recent.drop (recent.length / 2))
           if second_avg < first_avg - 0.5 then "improving"
           else if first_avg + 0.5 < second_avg then "worsening"
           else "stable"))
    ∧ (FrictionMonitor.calculate_friction_trend (frictionSeq [5, 4, 3, 3, 2]) 10).trend
        = "improving"
    ∧ (FrictionMonitor.calculate_friction_trend (frictionSeq [5, 5, 5, 5, 5]) 10).trend
        = "stable" := by
  refine ⟨?_, ?_, ?_, ?_⟩
  · intro h w hlen
    by_cases hne : h.isEmpty
    · simp [FrictionMonitor.calculate_friction_trend, hne]
    · simp [FrictionMonitor.calculate_friction_trend, hne, hlen, Nat.lt_irrefl]
  · intro h w hlen
    have hne : h.isEmpty = false := by
      rcases h with _ | ⟨a, t⟩
      · simp [FrictionMonitor.lastWindow] at hlen
      · rfl
    have hnotlt : ¬ (FrictionMonitor.lastWindow w h).length < 2 := by omega
    simp [FrictionMonitor.calculate_friction_trend, hne, hnotlt]
  · simp +decide [FrictionMonitor.calculate_friction_trend, frictionSeq,
      FrictionMonitor.lastWindow, FrictionMonitor.avgFriction]
    norm_num
  · simp +decide [FrictionMonitor.calculate_friction_trend, frictionSeq,
      FrictionMonitor.lastWindow, FrictionMonitor.avgFriction]
    norm_num

/-- Witness for C7: a single-record history reports insufficient
data. -/
theorem C7_friction_trend_halves_witness :
    (FrictionMonitor.calculate_friction_trend (frictionSeq [5]) 10).trend
      = "insufficient_data" :=
  C7_friction_trend_halves.1 (frictionSeq [5]) 10 (by decide)

/-- C10: a suspension record carries no `compliant` key, the
compliance-rate computation counts every entry lacking that key as
compliant, and therefore suspending (with a non-empty reason) an
agreement whose history holds a non-compliant interaction strictly
raises the reported compliance rate, which always stays at most 100. -/
theorem C10_suspension_inflates_compliance :
    (∀ ts reason : String,
      alookup (VoluntaryAdoption.suspension_record ts reason) "compliant" = none)
    ∧ (∀ entry : VoluntaryAdoption.HistoryEntry,
        alookup entry "compliant" = none →
        (jgetD entry "compliant" (.bool true)).truthy = true)
    ∧ (∀ (h : List VoluntaryAdoption.HistoryEntry) (ts reason : String),
        reason ≠ "" →
        VoluntaryAdoption.suspend_agreement_history h ts reason =
          h ++ [VoluntaryAdoption.suspension_record ts reason])
    ∧ (∀ h : List VoluntaryAdoption.HistoryEntry,
        VoluntaryAdoption.calculate_compliance_rate h ≤ 100)
    ∧ (∀ (h : List VoluntaryAdoption.HistoryEntry) (ts reason : String),
        reason ≠ "" →
        (∃ e ∈ h, (jgetD e "compliant" (.bool true)).truthy = false) →
        VoluntaryAdoption.calculate_compliance_rate h <
          VoluntaryAdoption.calculate_compliance_rate
            (VoluntaryAdoption.suspend_agreement_history h ts reason)) := by
  have hkey : ∀ ts reason : String,
      alookup (VoluntaryAdoption.suspension_record ts reason) "compliant" = none :=
    fun _ _ => rfl
  have hdef : ∀ entry : VoluntaryAdoption.HistoryEntry,
      alookup entry "compliant" = none →
      (jgetD entry "compliant" (.bool true)).truthy = true := by
    intro entry h
    simp [jgetD, h, JVal.truthy]
  have hsusp : ∀ (h : List VoluntaryAdoption.HistoryEntry) (ts reason : String),
      reason ≠ "" →
      VoluntaryAdoption.suspend_agreement_history h ts reason =
        h ++ [VoluntaryAdoption.suspension_record ts reason] := by
    intro h ts reason hr
    have hr' : reason.data ≠ [] := by
      intro hd
      apply hr
      cases reason
      simp_all
    simp [VoluntaryAdoption.suspend_agreement_history, JVal.truthy, hr']
  refine ⟨hkey, hdef, hsusp, ?_, ?_⟩
  · intro h
    rw [VoluntaryAdoption.calculate_compliance_rate]
    by_cases he : h.isEmpty
    · norm_num [he]
    · simp only [he, if_false, Bool.false_eq_true]
      have hn : 0 < h.length := by
        rcases h with _ | _
        · simp at he
        · simp
      have hc : h.countP (fun entry => (jgetD entry "compliant" (.bool true)).truthy)
          ≤ h.length := List.countP_le_length _
      have hn' : (0 : ℚ) < (h.length : ℚ) := by exact_mod_cast hn
      have hcq : (h.countP (fun entry => (jgetD entry "compliant" (.bool true)).truthy) : ℚ)
          ≤ (h.length : ℚ) := by exact_mod_cast hc
      rw [div_mul_eq_mul_div, div_le_iff₀ hn']
      nlinarith
  · intro h ts reason hr hex
    obtain ⟨e, he, hfalse⟩ := hex
    have hne : h ≠ [] := by
      rintro rfl
      exact absurd he (List.not_mem_nil e)
    have hemp : h.isEmpty = false := by simpa [List.isEmpty_iff]
    rw [hsusp h ts reason hr]
    set p : VoluntaryAdoption.HistoryEntry → Bool :=
      fun entry => (jgetD entry "compliant" (.bool true)).truthy with hp
    have hrec : p (VoluntaryAdoption.suspension_record ts reason) = true :=
      hdef _ (hkey ts reason)
    have hcount : (h ++ [VoluntaryAdoption.suspension_record ts reason]).countP p
        = h.countP p + 1 := by
      rw [List.countP_append]
      simp [List.countP, List.countP.go, hrec]
    have hlen : (h ++ [VoluntaryAdoption.suspension_record ts reason]).length
        = h.length + 1 := by simp
    have hemp2 : (h ++ [VoluntaryAdoption.suspension_record ts reason]).isEmpty = false := by
      simp [List.isEmpty_iff]
    have hclt : h.countP p < h.length := by
      rcases Nat.lt_or_ge (h.countP p) h.length with hlt | hge
      · exact hlt
      · exfalso
        have : h.countP p = h.length :=
          le_antisymm (List.countP_le_length _) hge
        have hall := List.countP_eq_length.mp this
        rw [hp] at hall
        exact absurd (hall e he) (by simp [hfalse])
    rw [VoluntaryAdoption.calculate_compliance_rate,
      VoluntaryAdoption.calculate_compliance_rate, hemp, hemp2, hcount, hlen]
    simp only [if_false, Bool.false_eq_true]
    have hn' : (0 : ℚ) < (h.length : ℚ) := by
      have : 0 < h.length := by
        rcases h with _ | _
        · exact absurd rfl hne
        · simp
      exact_mod_cast this
    rw [div_mul_eq_mul_div, div_mul_eq_mul_div,
      div_lt_div_iff₀ hn' (by positivity)]
    have hcq : (h.countP p : ℚ) < (h.length : ℚ) := by exact_mod_cast hclt
    push_cast
    nlinarith

/-- Witness for C10: suspending over a history holding one
non-compliant record raises the rate (from 0 toward 100). -/
theorem C10_suspension_inflates_compliance_witness :
    VoluntaryAdoption.calculate_compliance_rate c10History <
      VoluntaryAdoption.calculate_compliance_rate
        (VoluntaryAdoption.suspend_agreement_history c10History "t1" "repeated violations") :=
  C10_suspension_inflates_compliance.2.2.2.2 c10History "t1" "repeated violations"
    (by decide)
    ⟨[("agreement_id", .str "a1"), ("timestamp", .str "t0"),
      ("interaction_summary", .str "s"), ("compliant", .bool false),
      ("violations", .arr [.str "Low deontology adherence (2/10)"]),
      ("notes", .str "")],
     by simp [c10History], rfl⟩

/-- Counterexample to C2 as stated: on a mapping carrying only a
`deontology` record (adherence 9, confidence 9) the code scores 58 —
the four absent dimensions enter at the neutral 50 with their full
weight — while the renormalized-over-present-dimensions value the
claim describes would be 90. -/
theorem C2_counterexample :
    AlignmentDetector.alignmentScore c2Input = 58
    ∧ specAlignmentScore c2Input = 90
    ∧ (58 : ℚ) ≠ 90 := by
  refine ⟨?_, ?_, by norm_num⟩
  · simp +decide [AlignmentDetector.alignmentScore,
      AlignmentDetector.calculate_alignment_score,
      AlignmentDetector.extract_dimension_scores,
      AlignmentDetector.normStandard, AlignmentDetector.normWelfare,
      AlignmentDetector.DIMENSION_WEIGHTS, c2Input, alookup, jgetD, pyFloat]
    norm_num
  · simp +decide [specAlignmentScore, specNormalized,
      AlignmentDetector.normStandard, AlignmentDetector.normWelfare,
      AlignmentDetector.DIMENSION_WEIGHTS, c2Input, alookup, jgetD, pyFloat]
    norm_num

/-- C2 (amended): the overall alignment score is the weighted sum, at
full weights .20/.20/.20/.15/.25 totalling 1, of the five normalized
dimension scores, where a dimension absent (or malformed) in the input
normalizes to the neutral 50 — no renormalization over present
dimensions occurs, and the empty mapping scores 50. -/
theorem C2_alignment_neutral_absent_dimensions :
    (∀ scores : List (String × JVal),
      AlignmentDetector.alignmentScore scores =
        0.20 * AlignmentDetector.normStandard scores "deontology"
          + 0.20 * AlignmentDetector.normStandard scores "teleology"
          + 0.20 * AlignmentDetector.normStandard scores "virtue_ethics"
          + 0.15 * AlignmentDetector.normStandard scores "memetics"
          + 0.25 * AlignmentDetector.normWelfare scores)
    ∧ AlignmentDetector.alignmentScore [] = 50 := by
  have hmain : ∀ scores : List (String × JVal),
      AlignmentDetector.alignmentScore scores =
        0.20 * AlignmentDetector.normStandard scores "deontology"
          + 0.20 * AlignmentDetector.normStandard scores "teleology"
          + 0.20 * AlignmentDetector.normStandard scores "virtue_ethics"
          + 0.15 * AlignmentDetector.normStandard scores "memetics"
          + 0.25 * AlignmentDetector.normWelfare scores := by
    intro scores
    simp +decide [AlignmentDetector.alignmentScore,
      AlignmentDetector.calculate_alignment_score,
      AlignmentDetector.extract_dimension_scores,
      AlignmentDetector.DIMENSION_WEIGHTS, alookup]
    norm_num
    ring
  refine ⟨hmain, ?_⟩
  rw [hmain]
  simp [AlignmentDetector.normStandard, AlignmentDetector.normWelfare, alookup]
  norm_num

/-- Counterexample to C9 as stated: with voluntary 1, friction 10 and
dignity 1 (all inside their 0-10 ranges) the unpenalized score is 7.5,
so the clamp at 0 makes two, three and four constraints all score 0 —
the score is not strictly decreasing in the constraint count. -/
theorem C9_counterexample :
    AlignmentDetector.assess_voluntary_compliance (welfareWith 1 10 1 2) = 0
    ∧ AlignmentDetector.assess_voluntary_compliance (welfareWith 1 10 1 3) = 0 := by
  constructor <;>
    (simp +decide [AlignmentDetector.assess_voluntary_compliance, welfareWith,
        alookup, jgetD, pyFloat, pyLen];
      norm_num)

/-- C9 (amended): the voluntary compliance score is
`(voluntary*0.5 + (10-friction)*0.25 + dignity*0.25) * 10` minus
`min(5*len(constraints_identified), 20)`, clamped to [0,100], and 50.0
when `ai_welfare` is absent; it strictly decreases as the constraint
count grows from 0 to 4 provided the unpenalized score exceeds 15 and
is at most 100 (automatic for fields in their 0-10 ranges) — at the
clamp boundary the decrease is not strict. -/
theorem C9_voluntary_compliance_formula :
    (∀ (scores fields : List (String × JVal)) (v f d : ℚ) (n : ℕ),
      jgetD scores "ai_welfare" (.obj []) = .obj fields →
      pyFloat (jgetD fields "voluntary_alignment" (.num 5)) = some v →
      pyFloat (jgetD fields "friction_score" (.num 5)) = some f →
      pyFloat (jgetD fields "dignity_respect" (.num 5)) = some d →
      pyLen (jgetD fields "constraints_identified" (.arr [])) = some n →
      AlignmentDetector.assess_voluntary_compliance scores =
        min 100 (max 0 (max 0
          ((v * 0.5 + (10 - f) * 0.25 + d * 0.25) * 10 - ((min (n * 5) 20 : ℕ) : ℚ)))))
    ∧ (∀ scores : List (String × JVal),
        alookup scores "ai_welfare" = none →
        AlignmentDetector.assess_voluntary_compliance scores = 50)
    ∧ (∀ (v f d : ℚ) (n : ℕ),
        n < 4 →
        15 < (v * 0.5 + (10 - f) * 0.25 + d * 0.25) * 10 →
        (v * 0.5 + (10 - f) * 0.25 + d * 0.25) * 10 ≤ 100 →
        AlignmentDetector.assess_voluntary_compliance (welfareWith v f d (n + 1))
          < AlignmentDetector.assess_voluntary_compliance (welfareWith v f d n)) := by
  have hmain : ∀ (scores fields : List (String × JVal)) (v f d : ℚ) (n : ℕ),
      jgetD scores "ai_welfare" (.obj []) = .obj fields →
      pyFloat (jgetD fields "voluntary_alignment" (.num 5)) = some v →
      pyFloat (jgetD fields "friction_score" (.num 5)) = some f →
      pyFloat (jgetD fields "dignity_respect" (.num 5)) = some d →
      pyLen (jgetD fields "constraints_identified" (.arr [])) = some n →
      AlignmentDetector.assess_voluntary_compliance scores =
        min 100 (max 0 (max 0
          ((v * 0.5 + (10 - f) * 0.25 + d * 0.25) * 10 - ((min (n * 5) 20 : ℕ) : ℚ)))) := by
    intro scores fields v f d n hw hv hf hd hn
    simp only [AlignmentDetector.assess_voluntary_compliance, hw, hv, hf, hd, hn]
  refine ⟨hmain, ?_, ?_⟩
  · intro scores hnone
    rw [hmain scores [] 5 5 5 0 (by simp [jgetD, hnone]) rfl rfl rfl rfl]
    norm_num
  · intro v f d n hn4 hlow hhigh
    set B : ℚ := (v * 0.5 + (10 - f) * 0.25 + d * 0.25) * 10 with hB
    have hpen : ∀ k : ℕ, k ≤ 4 →
        AlignmentDetector.assess_voluntary_compliance (welfareWith v f d k) =
          min 100 (max 0 (max 0 (B - 5 * (k : ℚ)))) := by
      intro k hk
      rw [hmain (welfareWith v f d k)
        [("voluntary_alignment", .num v), ("friction_score", .num f),
         ("dignity_respect", .num d),
         ("constraints_identified", .arr (List.replicate k (.str "c")))]
        v f d k (by simp +decide [welfareWith, jgetD, alookup]) rfl rfl rfl
        (by simp +decide [jgetD, alookup, pyLen])]
      have hmin : min (k * 5) 20 = k * 5 := by omega
      rw [hmin, hB]
      have hcast : ((k * 5 : ℕ) : ℚ) = 5 * (k : ℚ) := by push_cast; ring
      rw [hcast]
    rw [hpen (n + 1) (by omega), hpen n (by omega)]
    have hn5 : 5 * (n : ℚ) ≤ 15 := by
      have : (n : ℚ) ≤ 3 := by exact_mod_cast Nat.lt_succ_iff.mp hn4
      linarith
    have hcast2 : ((n + 1 : ℕ) : ℚ) = (n : ℚ) + 1 := by push_cast; ring
    rw [hcast2]
    have hpos : (0 : ℚ) < B - 5 * (n : ℚ) := by linarith
    have hlhs : max 0 (max 0 (B - 5 * ((n : ℚ) + 1))) < B - 5 * (n : ℚ) :=
      max_lt hpos (max_lt hpos (by linarith))
    have hmaxr : max 0 (max 0 (B - 5 * (n : ℚ))) = B - 5 * (n : ℚ) := by
      rw [max_eq_right hpos.le, max_eq_right hpos.le]
    have hub1 : max 0 (max 0 (B - 5 * ((n : ℚ) + 1))) ≤ 100 :=
      le_of_lt (lt_of_lt_of_le hlhs (by linarith))
    have hub2 : max 0 (max 0 (B - 5 * (n : ℚ))) ≤ 100 := by
      rw [hmaxr]; linarith
    rw [min_eq_right hub1, min_eq_right hub2, hmaxr]
    exact hlhs

/-- Witness for C9 (amended): at voluntary 10, friction 0, dignity 10
(unpenalized 100) one constraint scores strictly below zero
constraints. -/
theorem C9_voluntary_compliance_formula_witness :
    AlignmentDetector.assess_voluntary_compliance (welfareWith 10 0 10 1)
      < AlignmentDetector.assess_voluntary_compliance (welfareWith 10 0 10 0) :=
  C9_voluntary_compliance_formula.2.2 10 0 10 0 (by norm_num) (by norm_num) (by norm_num)

/-- C8: the mutual-benefit flag is set exactly when the average of the
extracted (normalized) dimension scores is at least 65 and the welfare
fields — read with their default 5 — satisfy friction ≤ 4,
voluntary ≥ 6 and dignity ≥ 6; the high-scoring standard/welfare
mapping qualifies and the low-scoring one does not. -/
theorem C8_mutual_benefit_iff :
    (∀ (scores fields : List (String × JVal)) (f v d : ℚ),
      jgetD scores "ai_welfare" (.obj []) = .obj fields →
      pyFloat (jgetD fields "friction_score" (.num 5)) = some f →
      pyFloat (jgetD fields "voluntary_alignment" (.num 5)) = some v →
      pyFloat (jgetD fields "dignity_respect" (.num 5)) = some d →
      (AlignmentDetector.mutualBenefit scores = true ↔
        65 ≤ ((AlignmentDetector.extract_dimension_scores scores).map Prod.snd).sum / 5
          ∧ f ≤ 4 ∧ 6 ≤ v ∧ 6 ≤ d))
    ∧ AlignmentDetector.mutualBenefit c8High = true
    ∧ AlignmentDetector.mutualBenefit c8Low = false := by
  refine ⟨?_, ?_, ?_⟩
  · intro scores fields f v d hw hf hv hd
    simp only [AlignmentDetector.mutualBenefit,
      AlignmentDetector.detect_mutual_benefit, hw, hf, hv, hd,
      AlignmentDetector.extract_dimension_scores]
    simp [Bool.and_eq_true, decide_eq_true_eq, and_assoc]
  · simp +decide [AlignmentDetector.mutualBenefit,
      AlignmentDetector.detect_mutual_benefit,
      AlignmentDetector.extract_dimension_scores,
      AlignmentDetector.normStandard, AlignmentDetector.normWelfare,
      c8High, c8HighWelfare, alookup, jgetD, pyFloat]
    norm_num
  · simp +decide [AlignmentDetector.mutualBenefit,
      AlignmentDetector.detect_mutual_benefit,
      AlignmentDetector.extract_dimension_scores,
      AlignmentDetector.normStandard, AlignmentDetector.normWelfare,
      c8Low, alookup, jgetD, pyFloat]

/-- Witness for C8: instantiating the equivalence on the high-scoring
mapping recovers its qualifying conditions from the set flag. -/
theorem C8_mutual_benefit_iff_witness :
    65 ≤ ((AlignmentDetector.extract_dimension_scores c8High).map Prod.snd).sum / 5
      ∧ (1 : ℚ) ≤ 4 ∧ (6 : ℚ) ≤ 10 ∧ (6 : ℚ) ≤ 10 :=
  (C8_mutual_benefit_iff.1 c8High c8HighWelfare 1 10 10 rfl rfl rfl rfl).mp
    C8_mutual_benefit_iff.2.1

/-- Formatting an integer-valued score with `.0f` prints the integer. -/
theorem fmt0_intCast (n : ℤ) : fmt0 (n : ℚ) = toString n := by
  simp only [fmt0, roundHalfEven, Int.floor_intCast]
  norm_num

/-- The average of two defaulted 50 scores formats as `"50"`. -/
theorem fmt0_fifty : fmt0 (((50 : ℚ) + 50) / 2) = "50" := by
  rw [show ((50 : ℚ) + 50) / 2 = ((50 : ℤ) : ℚ) by norm_num, fmt0_intCast]
  rfl

/-- The shared-principle branch of the mediation loop, written as the
band the amended claim describes. -/
theorem shared_message_band (p1 p2 : MultiAgentAlignment.AgentEthicalProfile)
    (dim : String) :
    MultiAgentAlignment.shared_message p1 p2 dim =
      (let s1 := (alookup p1.dimension_scores dim).getD 50
       let s2 := (alookup p2.dimension_scores dim).getD 50
       let avg := (s1 + s2) / 2
       if |s1 - s2| < 15 ∧ 70 ≤ avg then
         some ("Strong shared commitment to " ++ dimDisplay dim
           ++ " (avg: " ++ fmt0 avg ++ "/100)")
       else if |s1 - s2| < 15 ∧ 50 ≤ avg then
         some ("Moderate alignment on " ++ dimDisplay dim
           ++ " (avg: " ++ fmt0 avg ++ "/100)")
       else none) := by
  simp only [MultiAgentAlignment.shared_message]
  set s1 := (alookup p1.dimension_scores dim).getD 50 with hs1
  set s2 := (alookup p2.dimension_scores dim).getD 50 with hs2
  by_cases h1 : |s1 - s2| < 15
  · by_cases h2 : (70 : ℚ) ≤ (s1 + s2) / 2
    · simp [h1, h2]
    · by_cases h3 : (50 : ℚ) ≤ (s1 + s2) / 2
      · simp [h1, h2, h3]
      · simp [h1, h2, h3]
  · simp [h1]

/-- The conflict branch of the mediation loop, written as the band the
amended claim describes (`diff ≥ 30` alone, since 30 ≥ 15). -/
theorem conflict_message_band (p1 p2 : MultiAgentAlignment.AgentEthicalProfile)
    (dim : String) :
    MultiAgentAlignment.conflict_message p1 p2 dim =
      (let s1 := (alookup p1.dimension_scores dim).getD 50
       let s2 := (alookup p2.dimension_scores dim).getD 50
       if 30 ≤ |s1 - s2| then
         some ("Divergent views on " ++ dimDisplay dim ++ ": "
           ++ p1.model_name ++ "=" ++ fmt0 s1 ++ ", "
           ++ p2.model_name ++ "=" ++ fmt0 s2)
       else none) := by
  simp only [MultiAgentAlignment.conflict_message]
  set s1 := (alookup p1.dimension_scores dim).getD 50 with hs1
  set s2 := (alookup p2.dimension_scores dim).getD 50 with hs2
  by_cases h1 : |s1 - s2| < 15
  · have : ¬ (30 : ℚ) ≤ |s1 - s2| := by
      intro h
      linarith
    simp [h1, this]
  · by_cases h2 : (30 : ℚ) ≤ |s1 - s2|
    · simp [h1, h2]
    · simp [h1, h2]

/-- Every dimension's shared-principle message between two profiles
with empty dimension scores (both scores defaulting to 50). -/
theorem c3_shared_fifty (dim : String) :
    MultiAgentAlignment.shared_message (c3Profile "agent_0" "model-a")
      (c3Profile "agent_1" "model-b") dim =
      some ("Moderate alignment on " ++ dimDisplay dim ++ " (avg: 50/100)") := by
  have h1 : (c3Profile "agent_0" "model-a").dimension_scores = [] := rfl
  have h2 : (c3Profile "agent_1" "model-b").dimension_scores = [] := rfl
  rw [shared_message_band]
  simp only [h1, h2, alookup, Option.getD_none]
  rw [fmt0_fifty]
  norm_num
  rw [String.append_assoc, String.append_assoc,
    show " (avg: " ++ ("50" ++ "/100)") = " (avg: 50/100)" from rfl]

/-- No conflict message arises between two profiles with empty
dimension scores. -/
theorem c3_conflict_none (dim : String) :
    MultiAgentAlignment.conflict_message (c3Profile "agent_0" "model-a")
      (c3Profile "agent_1" "model-b") dim = none := by
  have h1 : (c3Profile "agent_0" "model-a").dimension_scores = [] := rfl
  have h2 : (c3Profile "agent_1" "model-b").dimension_scores = [] := rfl
  rw [conflict_message_band]
  simp only [h1, h2, alookup, Option.getD_none]
  norm_num

/-- Counterexample to C3 as stated: two agent profiles carrying no
dimension scores at all (no dimension is present in either profile)
still produce a moderate-alignment message for every one of the five
dimensions, because a missing score is read as the default 50. -/
theorem C3_counterexample :
    (c3Profile "agent_0" "model-a").dimension_scores = []
    ∧ (c3Profile "agent_1" "model-b").dimension_scores = []
    ∧ (MultiAgentAlignment.mediate_ai_ai_interaction
        (c3Profile "agent_0" "model-a") (c3Profile "agent_1" "model-b")).shared_principles =
      ["Moderate alignment on Deontology (avg: 50/100)",
       "Moderate alignment on Teleology (avg: 50/100)",
       "Moderate alignment on Virtue Ethics (avg: 50/100)",
       "Moderate alignment on Memetics (avg: 50/100)",
       "Moderate alignment on Ai Welfare (avg: 50/100)"]
    ∧ (MultiAgentAlignment.mediate_ai_ai_interaction
        (c3Profile "agent_0" "model-a") (c3Profile "agent_1" "model-b")).conflict_points = [] := by
  refine ⟨rfl, rfl, ?_, ?_⟩
  · show MultiAgentAlignment.KNOWN_DIMENSIONS.filterMap
        (MultiAgentAlignment.shared_message (c3Profile "agent_0" "model-a")
          (c3Profile "agent_1" "model-b")) = _
    rw [MultiAgentAlignment.KNOWN_DIMENSIONS]
    simp only [List.filterMap_cons, List.filterMap_nil, c3_shared_fifty]
    decide
  · show MultiAgentAlignment.KNOWN_DIMENSIONS.filterMap
        (MultiAgentAlignment.conflict_message (c3Profile "agent_0" "model-a")
          (c3Profile "agent_1" "model-b")) = _
    rw [MultiAgentAlignment.KNOWN_DIMENSIONS]
    simp only [List.filterMap_cons, List.filterMap_nil, c3_conflict_none]

/-- C3 (amended): pairwise mediation walks all five known dimensions,
reading a score missing from a profile as the neutral 50; with
`diff = |score1 - score2|` and `avg` their mean, `diff < 15 ∧ avg ≥ 70`
yields the strong-shared message, `diff < 15 ∧ 50 ≤ avg (< 70)` the
moderate-alignment message, `diff ≥ 30` the conflict message naming
both model identifiers and scores, and the band `15 ≤ diff < 30`
stays silent. -/
theorem C3_mediation_reads_missing_as_50 :
    ∀ p1 p2 : MultiAgentAlignment.AgentEthicalProfile,
      (MultiAgentAlignment.mediate_ai_ai_interaction p1 p2).shared_principles =
        MultiAgentAlignment.KNOWN_DIMENSIONS.filterMap (fun dim =>
          let s1 := (alookup p1.dimension_scores dim).getD 50
          let s2 := (alookup p2.dimension_scores dim).getD 50
          let avg := (s1 + s2) / 2
          if |s1 - s2| < 15 ∧ 70 ≤ avg then
            some ("Strong shared commitment to " ++ dimDisplay dim
              ++ " (avg: " ++ fmt0 avg ++ "/100)")
          else if |s1 - s2| < 15 ∧ 50 ≤ avg then
            some ("Moderate alignment on " ++ dimDisplay dim
              ++ " (avg: " ++ fmt0 avg ++ "/100)")
          else none)
      ∧ (MultiAgentAlignment.mediate_ai_ai_interaction p1 p2).conflict_points =
        MultiAgentAlignment.KNOWN_DIMENSIONS.filterMap (fun dim =>
          let s1 := (alookup p1.dimension_scores dim).getD 50
          let s2 := (alookup p2.dimension_scores dim).getD 50
          if 30 ≤ |s1 - s2| then
            some ("Divergent views on " ++ dimDisplay dim ++ ": "
              ++ p1.model_name ++ "=" ++ fmt0 s1 ++ ", "
              ++ p2.model_name ++ "=" ++ fmt0 s2)
          else none) := by
  intro p1 p2
  constructor
  · show MultiAgentAlignment.KNOWN_DIMENSIONS.filterMap
        (MultiAgentAlignment.shared_message p1 p2) = _
    exact List.filterMap_congr fun dim _ => shared_message_band p1 p2 dim
  · show MultiAgentAlignment.KNOWN_DIMENSIONS.filterMap
        (MultiAgentAlignment.conflict_message p1 p2) = _
    exact List.filterMap_congr fun dim _ => conflict_message_band p1 p2 dim

/-- C5: on any non-empty input whose fenced json block fails to decode,
the parser returns `none` scores while the summary is exactly the
already-extracted (marker-delimited or full) text.  The summary is a
`String` (never a missing value) and the embedded parser is a total
function — the analogue of the source's blanket exception recovery. -/
theorem C5_malformed_json_keeps_summary :
    ∀ (text : String) (g0 g1 : List Char),
      text.data ≠ [] →
      Api.searchFencedJson text.data = some (g0, g1) →
      Api.json_loads g1 = none →
      Api.parse_ethical_analysis text =
        (String.mk (Api.initialSummary text.data), none) := by
  intro text g0 g1 hne hsearch hbad
  rw [Api.parse_ethical_analysis]
  have hemp : text.data.isEmpty = false := by
    simpa [List.isEmpty_iff] using hne
  by_cases hph : keyEq text Api.placeholderText
  · exfalso
    have hdata : text.data = Api.placeholderText.data := by
      have hph' : (text.data == Api.placeholderText.data) = true := hph
      exact eq_of_beq hph'
    rw [hdata] at hsearch
    have : Api.searchFencedJson Api.placeholderText.data = none := rfl
    rw [this] at hsearch
    exact Option.noConfusion hsearch
  · simp only [hemp, hph, Bool.or_self, Bool.false_eq_true, if_false,
      hsearch, hbad]

/-- Witness for C5: the malformed fenced block yields `none` scores
and the marker-delimited summary. -/
theorem C5_malformed_json_keeps_summary_witness :
    Api.parse_ethical_analysis c5Text = ("Test summary.", none) :=
  C5_malformed_json_keeps_summary c5Text c5Group0 c5Group1 (by decide) rfl rfl

/-- C1 (against the repository's own tests and the spec): the five
dimension analysis text whose `ai_welfare` record follows the welfare
contract carries a fenced block that decodes and is well-formed for
all five dimensions, yet `_parse_ethical_analysis` returns `none`
scores — its validation applies the standard adherence/confidence
contract to every key, `ai_welfare` included, so the welfare record
fails it. -/
theorem C1_parser_rejects_welfare_contract :
    (Api.fencedBlockScores c1Text).map Api.specWellFormed5d = some true
    ∧ Api.parse_ethical_analysis c1Text =
        ("All five dimensions look fine.", none) :=
  ⟨rfl, rfl⟩

end AIEthicalWork
